import Mathlib

set_option maxRecDepth 10000

/-!
Shallow embedding of the toggle-sequencer firmware (src/src/main.c) and the
wireless trigger stub (src/src/main2.c).

The firmware arms an autonomous hardware chain: TIMER20 (timer mode, 1 MHz,
CC0 = 500000, COMPARE0-to-CLEAR short) publishes its COMPARE0 event on DPPI
channel 8; GPIOTE channel 0 (toggle task on pin P1.10) and TIMER21's COUNT
task (counter mode, CC0 = 6) subscribe to channel 8.  TIMER21 publishes its
COMPARE0 event on DPPI channel 9; the STOP tasks of both timers subscribe to
channel 9.  TIMER21's COMPARE0 interrupt invokes `cleanup_chain`.

Peripheral registers are modelled as record fields; each HAL call of the C
source is one constructor of `Op`, and `cleanup_chain` /
`setup_and_start_chain` are folds over explicit op lists in exact source
order.  One spontaneous hardware occurrence of TIMER20's COMPARE0 event,
together with its whole DPPI fan-out, is `fanoutStep`.  Two ghost
observation fields are added to the state: `edgeCount` counts changes of the
observable pin level, and `timeTicks` accumulates elapsed TIMER20 ticks
(1 tick = 1 us at the 1 MHz prescaler); no operation reads them.
-/

/-- Operating mode of an nRF TIMER peripheral. -/
inductive TimerMode where
  | timer
  | counter
deriving DecidableEq, Repr

/-- Registers of one nRF TIMER instance, as programmed by main.c. -/
structure TimerState where
  mode : TimerMode
  bitWidth32 : Bool
  freq1MHz : Bool
  cc0 : Nat
  shortsCompare0Clear : Bool
  running : Bool
  count : Nat
  compare0Event : Bool
  intCompare0 : Bool
  publishCompare0 : Option Nat
  subscribeCount : Option Nat
  subscribeStop : Option Nat
deriving DecidableEq, Repr

/-- Registers of GPIOTE20 channel 0 (the LED1 toggle task). -/
structure GpioteState where
  taskEnabled : Bool
  configuredPin : Option Nat
  polarityToggle : Bool
  initLow : Bool
  outLevel : Bool
  subscribeOut : Option Nat
deriving DecidableEq, Repr

/-- Whole-system state: both timers, GPIOTE, the DPPI channel-enable mask,
the GPIO port output register for the toggled pin, the firmware globals
`chain_active` and `last_press_time`, the LED0 indicator, and the two ghost
observation fields `edgeCount` and `timeTicks`. -/
structure SysState where
  timer20 : TimerState
  timer21 : TimerState
  gpiote : GpioteState
  dppiChEn : Nat
  gpioOut : Bool
  pinIsOutput : Bool
  chain_active : Bool
  led0 : Bool
  last_press_time : Int
  edgeCount : Nat
  timeTicks : Nat
deriving DecidableEq, Repr

/-- NRF_GPIO_PIN_MAP(1, 10). -/
def OUTPUT_PIN : Nat := 42

/-- DPPI channel carrying TIMER20 COMPARE0 (toggle + count). -/
def DPPI_CH_TOGGLE : Nat := 8

/-- DPPI channel carrying TIMER21 COMPARE0 (stop both timers). -/
def DPPI_CH_STOP : Nat := 9

/-- The channel mask (1 << 8) | (1 << 9) used by main.c for enable/disable. -/
def DPPI_MASK : Nat := (1 <<< DPPI_CH_TOGGLE) ||| (1 <<< DPPI_CH_STOP)

/-- Observable logic level of the output pin: while the GPIOTE task owns the
pin it drives the task's OUT level, otherwise the GPIO port register does. -/
def obsLevel (s : SysState) : Bool :=
  if s.gpiote.taskEnabled then s.gpiote.outLevel else s.gpioOut

/-- Which of the two timers a HAL call addresses. -/
inductive TimerId where
  | t20
  | t21
deriving DecidableEq, Repr

def getTimer : TimerId → SysState → TimerState
  | .t20, s => s.timer20
  | .t21, s => s.timer21

def setTimer : TimerId → TimerState → SysState → SysState
  | .t20, t, s => { s with timer20 := t }
  | .t21, t, s => { s with timer21 := t }

def updTimer (id : TimerId) (f : TimerState → TimerState) (s : SysState) : SysState :=
  setTimer id (f (getTimer id s)) s

/-- One HAL call of main.c, named after the nrf_hal function it embeds. -/
inductive Op where
  | timerTaskStop (t : TimerId)
  | timerTaskStart (t : TimerId)
  | timerTaskClear (t : TimerId)
  | timerModeSet (t : TimerId) (m : TimerMode)
  | timerBitWidth32 (t : TimerId)
  | timerFreq1MHz (t : TimerId)
  | timerCcSet (t : TimerId) (v : Nat)
  | timerShortsEnableC0Clear (t : TimerId)
  | timerShortsDisableC0Clear (t : TimerId)
  | timerEventClearC0 (t : TimerId)
  | timerIntEnableC0 (t : TimerId)
  | timerIntDisableC0 (t : TimerId)
  | timerPublishSetC0 (t : TimerId) (ch : Nat)
  | timerPublishClearC0 (t : TimerId)
  | timerSubscribeSetCount (t : TimerId) (ch : Nat)
  | timerSubscribeClearCount (t : TimerId)
  | timerSubscribeSetStop (t : TimerId) (ch : Nat)
  | timerSubscribeClearStop (t : TimerId)
  | gpioteTaskConfigure (pin : Nat)
  | gpioteTaskEnable
  | gpioteTaskDisable
  | gpioteSubscribeSetOut (ch : Nat)
  | gpioteSubscribeClearOut
  | dppiChannelsEnable (mask : Nat)
  | dppiChannelsDisable (mask : Nat)
  | gpioCfgOutput (pin : Nat)
  | gpioPinClear (pin : Nat)
  | setChainActive (b : Bool)
deriving DecidableEq, Repr

/-- Register effect of one HAL call (ghost fields untouched). -/
def applyOpRaw : Op → SysState → SysState
  | .timerTaskStop id, s => updTimer id (fun t => { t with running := false }) s
  | .timerTaskStart id, s => updTimer id (fun t => { t with running := true }) s
  | .timerTaskClear id, s => updTimer id (fun t => { t with count := 0 }) s
  | .timerModeSet id m, s => updTimer id (fun t => { t with mode := m }) s
  | .timerBitWidth32 id, s => updTimer id (fun t => { t with bitWidth32 := true }) s
  | .timerFreq1MHz id, s => updTimer id (fun t => { t with freq1MHz := true }) s
  | .timerCcSet id v, s => updTimer id (fun t => { t with cc0 := v }) s
  | .timerShortsEnableC0Clear id, s =>
      updTimer id (fun t => { t with shortsCompare0Clear := true }) s
  | .timerShortsDisableC0Clear id, s =>
      updTimer id (fun t => { t with shortsCompare0Clear := false }) s
  | .timerEventClearC0 id, s => updTimer id (fun t => { t with compare0Event := false }) s
  | .timerIntEnableC0 id, s => updTimer id (fun t => { t with intCompare0 := true }) s
  | .timerIntDisableC0 id, s => updTimer id (fun t => { t with intCompare0 := false }) s
  | .timerPublishSetC0 id ch, s =>
      updTimer id (fun t => { t with publishCompare0 := some ch }) s
  | .timerPublishClearC0 id, s =>
      updTimer id (fun t => { t with publishCompare0 := none }) s
  | .timerSubscribeSetCount id ch, s =>
      updTimer id (fun t => { t with subscribeCount := some ch }) s
  | .timerSubscribeClearCount id, s =>
      updTimer id (fun t => { t with subscribeCount := none }) s
  | .timerSubscribeSetStop id ch, s =>
      updTimer id (fun t => { t with subscribeStop := some ch }) s
  | .timerSubscribeClearStop id, s =>
      updTimer id (fun t => { t with subscribeStop := none }) s
  | .gpioteTaskConfigure pin, s =>
      { s with gpiote := { s.gpiote with
          configuredPin := some pin, polarityToggle := true, initLow := true } }
  | .gpioteTaskEnable, s =>
      { s with gpiote := { s.gpiote with
          taskEnabled := true, outLevel := if s.gpiote.initLow then false else true } }
  | .gpioteTaskDisable, s =>
      { s with gpiote := { s.gpiote with taskEnabled := false } }
  | .gpioteSubscribeSetOut ch, s =>
      { s with gpiote := { s.gpiote with subscribeOut := some ch } }
  | .gpioteSubscribeClearOut, s =>
      { s with gpiote := { s.gpiote with subscribeOut := none } }
  | .dppiChannelsEnable mask, s =>
      { s with dppiChEn := (s.dppiChEn ||| mask) % 2 ^ 32 }
  | .dppiChannelsDisable mask, s =>
      { s with dppiChEn := s.dppiChEn &&& ((2 ^ 32 - 1) ^^^ mask) }
  | .gpioCfgOutput _, s => { s with pinIsOutput := true }
  | .gpioPinClear _, s => { s with gpioOut := false }
  | .setChainActive b, s => { s with chain_active := b }

/-- Run a raw state transformer and account every change of the observable
pin level in the ghost edge counter. -/
def withEdges (f : SysState → SysState) (s : SysState) : SysState :=
  let t := f s
  { t with edgeCount := s.edgeCount + (if obsLevel t = obsLevel s then 0 else 1) }

def applyOp (s : SysState) (op : Op) : SysState := withEdges (applyOpRaw op) s

def applyOps (ops : List Op) (s : SysState) : SysState := ops.foldl applyOp s

/-- The HAL calls of cleanup_chain (main.c lines 56-97), in source order. -/
def cleanupOps : List Op := [
  .timerTaskStop .t20,
  .timerTaskStop .t21,
  .timerIntDisableC0 .t21,
  .dppiChannelsDisable DPPI_MASK,
  .timerPublishClearC0 .t20,
  .gpioteSubscribeClearOut,
  .timerSubscribeClearCount .t21,
  .timerPublishClearC0 .t21,
  .timerSubscribeClearStop .t20,
  .timerSubscribeClearStop .t21,
  .gpioteTaskDisable,
  .timerShortsDisableC0Clear .t20,
  .timerModeSet .t20 .counter,
  .gpioCfgOutput OUTPUT_PIN,
  .gpioPinClear OUTPUT_PIN,
  .setChainActive false]

/-- cleanup_chain (main.c lines 56-97). -/
def cleanup_chain (s : SysState) : SysState := applyOps cleanupOps s

/-- The HAL calls of the body of setup_and_start_chain (main.c lines
123-174), in source order, with the two hard-coded constants (CC0 = 500000
on TIMER20, CC0 = 6 on TIMER21) passed as arguments. -/
def setupOps (intervalTicks toggleCount : Nat) : List Op := [
  .timerModeSet .t20 .timer,
  .timerBitWidth32 .t20,
  .timerFreq1MHz .t20,
  .timerCcSet .t20 intervalTicks,
  .timerShortsEnableC0Clear .t20,
  .timerTaskClear .t20,
  .timerEventClearC0 .t20,
  .timerModeSet .t21 .counter,
  .timerBitWidth32 .t21,
  .timerCcSet .t21 toggleCount,
  .timerTaskClear .t21,
  .timerEventClearC0 .t21,
  .gpioCfgOutput OUTPUT_PIN,
  .gpioPinClear OUTPUT_PIN,
  .gpioteTaskConfigure OUTPUT_PIN,
  .gpioteTaskEnable,
  .timerPublishSetC0 .t20 DPPI_CH_TOGGLE,
  .gpioteSubscribeSetOut DPPI_CH_TOGGLE,
  .timerSubscribeSetCount .t21 DPPI_CH_TOGGLE,
  .timerPublishSetC0 .t21 DPPI_CH_STOP,
  .timerSubscribeSetStop .t20 DPPI_CH_STOP,
  .timerSubscribeSetStop .t21 DPPI_CH_STOP,
  .dppiChannelsEnable DPPI_MASK,
  .timerIntEnableC0 .t21,
  .setChainActive true,
  .timerTaskStart .t21,
  .timerTaskStart .t20]

/-- setup_and_start_chain (main.c lines 116-175): if the chain is active it
is first cleaned up, then the peripherals are configured and started. -/
def setup_and_start_chain (s : SysState) : SysState :=
  applyOps (setupOps 500000 6) (if s.chain_active then cleanup_chain s else s)

/-- timer21_isr (main.c lines 102-110): on a pending COMPARE0 event, clear
it and run cleanup_chain. -/
def timer21_isr (s : SysState) : SysState :=
  if s.timer21.compare0Event then
    cleanup_chain { s with timer21 := { s.timer21 with compare0Event := false } }
  else s

/-- button_pressed (main.c lines 182-194): presses closer than 300 ms to the
previous accepted press are ignored; otherwise LED0 is toggled and the chain
is (re)armed. -/
def button_pressed (now : Int) (s : SysState) : SysState :=
  if now - s.last_press_time < 300 then s
  else setup_and_start_chain { s with last_press_time := now, led0 := !s.led0 }

/-- Does an event published on channel `pub` reach a task subscribed on
channel `sub` through the DPPI (same channel, and that channel enabled)? -/
def routeFires (s : SysState) (pub sub : Option Nat) : Bool :=
  match pub, sub with
  | some p, some q => decide (p = q) && s.dppiChEn.testBit p
  | _, _ => false

/-- Register effect of one spontaneous TIMER20 COMPARE0 occurrence and its
whole DPPI fan-out: the COMPARE0 event is latched (the COMPARE0-to-CLEAR
short resets the counter), the event toggles the GPIOTE OUT level and
increments TIMER21's counter through channel 8 where routed and enabled, and
if TIMER21's counter thereby reaches its CC0 its COMPARE0 event is latched
and stops both timers through channel 9 where routed and enabled.  The DPPI
routing registers never change during the fan-out, so all route conditions
are evaluated on the entry state. -/
def fanoutStepRaw (s : SysState) : SysState :=
  let dticks := if s.timer20.count < s.timer20.cc0
    then s.timer20.cc0 - s.timer20.count
    else 2 ^ 32 - (s.timer20.count - s.timer20.cc0)
  let toggleFires := routeFires s s.timer20.publishCompare0 s.gpiote.subscribeOut
    && s.gpiote.taskEnabled && s.gpiote.polarityToggle
  let countFires := routeFires s s.timer20.publishCompare0 s.timer21.subscribeCount
    && s.timer21.running && (s.timer21.mode == TimerMode.counter)
  let c := if countFires then (s.timer21.count + 1) % 2 ^ 32 else s.timer21.count
  let hit := countFires && decide (c = s.timer21.cc0)
  let stop20 := hit && routeFires s s.timer21.publishCompare0 s.timer20.subscribeStop
  let stop21 := hit && routeFires s s.timer21.publishCompare0 s.timer21.subscribeStop
  { s with
    timer20 := { s.timer20 with
      compare0Event := true,
      count := if s.timer20.shortsCompare0Clear then 0 else s.timer20.cc0,
      running := s.timer20.running && !stop20 },
    timer21 := { s.timer21 with
      count := c,
      compare0Event := s.timer21.compare0Event || hit,
      running := s.timer21.running && !stop21 },
    gpiote := { s.gpiote with outLevel := Bool.xor s.gpiote.outLevel toggleFires },
    timeTicks := s.timeTicks + dticks }

/-- One TIMER20 COMPARE0 occurrence: possible only while TIMER20 is started
and in timer mode, otherwise nothing happens. -/
def fanoutStep (s : SysState) : SysState :=
  if s.timer20.running && (s.timer20.mode == TimerMode.timer) then
    withEdges fanoutStepRaw s
  else s

/-- State after `n` TIMER20 COMPARE0 occurrences. -/
def runChain : Nat → SysState → SysState
  | 0, s => s
  | n + 1, s => runChain n (fanoutStep s)

/-- A timer at peripheral reset: mode register 0 (timer mode), stopped, no
publish or subscribe route, no short, no interrupt, counter 0. -/
def resetTimer : TimerState :=
  { mode := .timer, bitWidth32 := false, freq1MHz := false, cc0 := 0,
    shortsCompare0Clear := false, running := false, count := 0,
    compare0Event := false, intCompare0 := false, publishCompare0 := none,
    subscribeCount := none, subscribeStop := none }

/-- System state after main() has initialised (main.c lines 197-231): both
timers at reset, GPIOTE unconfigured, all DPPI channels disabled, the output
pin configured as a plain GPIO output driven low, chain_active false,
last_press_time 0. -/
def initState : SysState :=
  { timer20 := resetTimer, timer21 := resetTimer,
    gpiote := { taskEnabled := false, configuredPin := none, polarityToggle := false,
                initLow := false, outLevel := false, subscribeOut := none },
    dppiChEn := 0, gpioOut := false, pinIsOutput := true, chain_active := false,
    led0 := false, last_press_time := 0, edgeCount := 0, timeTicks := 0 }

/-- The canonical armed state: setup_and_start_chain run from the boot state. -/
def armState : SysState := setup_and_start_chain initState

/-- An asynchronous occurrence the firmware reacts to: a button press at a
given uptime, a TIMER20 COMPARE0 occurrence, or the TIMER21 IRQ (taken only
while the peripheral interrupt is enabled; the handler itself re-checks the
event register). -/
inductive Ev where
  | press (now : Int)
  | fire
  | irq
deriving DecidableEq, Repr

def applyEvent : Ev → SysState → SysState
  | .press now, s => button_pressed now s
  | .fire, s => fanoutStep s
  | .irq, s => if s.timer21.intCompare0 then timer21_isr s else s

/-- States the firmware can reach from boot under any sequence of events. -/
inductive Reachable : SysState → Prop
  | init : Reachable initState
  | step (e : Ev) {s : SysState} : Reachable s → Reachable (applyEvent e s)

/-- GATT connection-callback globals of main2.c (the `current_conn` pointer,
abstracted to an optional connection identifier). -/
structure BleState where
  current_conn : Option Nat
deriving DecidableEq, Repr

set_option linter.unusedVariables false in
/-- io_trigger_write (main2.c lines 34-47): the write callback casts all of
its arguments to void, touches no global, and returns `len`. -/
def io_trigger_write (st : BleState) (conn : Nat) (buf : List Nat)
    (len offset flags : Nat) : BleState × Int := (st, (len : Int))

/-- A timer whose operating mode keeps the HFCLK clock domain requested:
per the source comment (main.c lines 85-90), timer mode needs HFCLK even
while stopped, counter mode does not. -/
def timerRequiresHFCLK (t : TimerState) : Bool := t.mode == TimerMode.timer

/-- Errors of the spec's arm-time taxonomy. -/
inductive ArmError where
  | resourceExhausted
  | invalidConfig
deriving DecidableEq, Repr

/-- SequenceConfig of the spec's data model. -/
structure SequenceConfig where
  cycleIntervalTicks : Nat
  toggleIntervalTicks : Nat
  toggleCount : Nat
deriving DecidableEq, Repr

/-- Modelled from the spec: an `arm(config)` entry point that rejects
`toggleCount == 0` with `InvalidConfig` and no state change.  The repository
source in src/ has no such validating arm: `setup_and_start_chain` in
main.c takes no configuration and hard-codes toggleCount = 6, so the
arm-time validation described by the spec's error taxonomy is not in src/.
The accepting branch reuses the op list of `setup_and_start_chain` with the
configured interval and count in place of the hard-coded constants. -/
def arm_spec (cfg : SequenceConfig) (s : SysState) : Option ArmError × SysState :=
  if cfg.toggleCount = 0 then (some ArmError.invalidConfig, s)
  else (none, applyOps (setupOps cfg.toggleIntervalTicks cfg.toggleCount)
    (if s.chain_active then cleanup_chain s else s))

/-- The state reached after a partial run: the chain is armed from boot,
then two of the six toggles elapse.  Used by the double-press scenario. -/
def pressTwiceMid : SysState := runChain 2 (button_pressed 1000 initState)

/-- Prefix of the arm sequence: the state after the first `i` HAL calls of
setup_and_start_chain's body, starting from the boot state (in which the
chain is inactive, so the cleanup branch of setup_and_start_chain does not
run). -/
def armPrefix (i : Nat) : SysState := applyOps ((setupOps 500000 6).take i) initState

/-- All publish/subscribe routes of the chain are cleared. -/
def routesCleared (s : SysState) : Prop :=
  s.timer20.publishCompare0 = none ∧ s.gpiote.subscribeOut = none ∧
  s.timer21.subscribeCount = none ∧ s.timer21.publishCompare0 = none ∧
  s.timer20.subscribeStop = none ∧ s.timer21.subscribeStop = none

/-- All publish/subscribe routes of the chain are set exactly as
setup_and_start_chain programs them. -/
def routesConfigured (s : SysState) : Prop :=
  s.timer20.publishCompare0 = some DPPI_CH_TOGGLE ∧
  s.gpiote.subscribeOut = some DPPI_CH_TOGGLE ∧
  s.timer21.subscribeCount = some DPPI_CH_TOGGLE ∧
  s.timer21.publishCompare0 = some DPPI_CH_STOP ∧
  s.timer20.subscribeStop = some DPPI_CH_STOP ∧
  s.timer21.subscribeStop = some DPPI_CH_STOP

/-- Quiescent-state properties: pin observably low, both orchestrator-owned
DPPI channels disabled, every route cleared, the GPIOTE task disabled, and
TIMER20 stopped. -/
def IdleProps (s : SysState) : Prop :=
  obsLevel s = false ∧ s.dppiChEn.testBit DPPI_CH_TOGGLE = false ∧
  s.dppiChEn.testBit DPPI_CH_STOP = false ∧ routesCleared s ∧
  s.gpiote.taskEnabled = false ∧ s.timer20.running = false

/-- Armed-state properties: the routing is fully configured, both owned DPPI
channels are enabled, and the GPIOTE task is enabled. -/
def ActiveProps (s : SysState) : Prop :=
  routesConfigured s ∧ s.dppiChEn.testBit DPPI_CH_TOGGLE = true ∧
  s.dppiChEn.testBit DPPI_CH_STOP = true ∧ s.gpiote.taskEnabled = true

/-- The global invariant of the spec's data model, keyed on chain_active. -/
def ChainInv (s : SysState) : Prop :=
  (s.chain_active = false → IdleProps s) ∧ (s.chain_active = true → ActiveProps s)

instance (s : SysState) : Decidable (routesCleared s) := by
  unfold routesCleared
  infer_instance

instance (s : SysState) : Decidable (routesConfigured s) := by
  unfold routesConfigured
  infer_instance

instance (s : SysState) : Decidable (IdleProps s) := by
  unfold IdleProps
  infer_instance

instance (s : SysState) : Decidable (ActiveProps s) := by
  unfold ActiveProps
  infer_instance

instance (s : SysState) : Decidable (ChainInv s) := by
  unfold ChainInv
  infer_instance

theorem maskAnd_testBit8 (x : Nat) : (x &&& 4294966527).testBit 8 = false := by
  rw [Nat.testBit_and]
  have h : Nat.testBit 4294966527 8 = false := by decide
  rw [h, Bool.and_false]

theorem maskAnd_testBit9 (x : Nat) : (x &&& 4294966527).testBit 9 = false := by
  rw [Nat.testBit_and]
  have h : Nat.testBit 4294966527 9 = false := by decide
  rw [h, Bool.and_false]

theorem maskOr_testBit8 (x : Nat) : ((x ||| 768) % 4294967296).testBit 8 = true := by
  have h : (4294967296 : Nat) = 2 ^ 32 := by norm_num
  rw [h, Nat.testBit_mod_two_pow, Nat.testBit_or]
  have h2 : Nat.testBit 768 8 = true := by decide
  rw [h2, Bool.or_true]
  simp

theorem maskOr_testBit9 (x : Nat) : ((x ||| 768) % 4294967296).testBit 9 = true := by
  have h : (4294967296 : Nat) = 2 ^ 32 := by norm_num
  rw [h, Nat.testBit_mod_two_pow, Nat.testBit_or]
  have h2 : Nat.testBit 768 9 = true := by decide
  rw [h2, Bool.or_true]
  simp

/-- cleanup_chain establishes the quiescent-state properties from any state
whatsoever, and deasserts chain_active. -/
theorem cleanup_idle (s : SysState) :
    IdleProps (cleanup_chain s) ∧ (cleanup_chain s).chain_active = false := by
  simp [cleanup_chain, applyOps, cleanupOps, applyOp, applyOpRaw, withEdges, obsLevel,
    updTimer, getTimer, setTimer, IdleProps, routesCleared, maskAnd_testBit8, maskAnd_testBit9,
    DPPI_CH_TOGGLE, DPPI_CH_STOP, DPPI_MASK]
  exact ⟨fun _ => by decide, fun _ => by decide⟩

/-- The body of setup_and_start_chain establishes the armed-state properties
from any state whatsoever, and asserts chain_active. -/
theorem setup_active (s : SysState) :
    ActiveProps (applyOps (setupOps 500000 6) s) ∧
    (applyOps (setupOps 500000 6) s).chain_active = true := by
  simp [applyOps, setupOps, applyOp, applyOpRaw, withEdges, obsLevel,
    updTimer, getTimer, setTimer, ActiveProps, routesConfigured, maskOr_testBit8,
    maskOr_testBit9, DPPI_CH_TOGGLE, DPPI_CH_STOP, DPPI_MASK]

/-- The hardware fan-out never touches the routing registers, the DPPI
enable mask, the GPIOTE task enable, or chain_active. -/
theorem fanout_wiring (s : SysState) :
    (fanoutStep s).timer20.publishCompare0 = s.timer20.publishCompare0 ∧
    (fanoutStep s).gpiote.subscribeOut = s.gpiote.subscribeOut ∧
    (fanoutStep s).timer21.subscribeCount = s.timer21.subscribeCount ∧
    (fanoutStep s).timer21.publishCompare0 = s.timer21.publishCompare0 ∧
    (fanoutStep s).timer20.subscribeStop = s.timer20.subscribeStop ∧
    (fanoutStep s).timer21.subscribeStop = s.timer21.subscribeStop ∧
    (fanoutStep s).dppiChEn = s.dppiChEn ∧
    (fanoutStep s).gpiote.taskEnabled = s.gpiote.taskEnabled ∧
    (fanoutStep s).chain_active = s.chain_active := by
  unfold fanoutStep withEdges fanoutStepRaw
  split <;> simp

/-- Every firmware event preserves the global invariant. -/
theorem chainInv_preserved (e : Ev) (s : SysState) (h : ChainInv s) :
    ChainInv (applyEvent e s) := by
  cases e with
  | press now =>
    show ChainInv (button_pressed now s)
    unfold button_pressed
    split
    · exact h
    · unfold setup_and_start_chain
      constructor
      · intro hc
        rw [(setup_active _).2] at hc
        exact absurd hc (by decide)
      · intro _
        exact (setup_active _).1
  | fire =>
    show ChainInv (fanoutStep s)
    obtain ⟨hidle, hact⟩ := h
    have hw := fanout_wiring s
    by_cases hc : s.chain_active = true
    · constructor
      · intro hcf
        rw [hw.2.2.2.2.2.2.2.2] at hcf
        rw [hcf] at hc
        exact absurd hc (by decide)
      · intro _
        obtain ⟨hr, hb8, hb9, hg⟩ := hact hc
        obtain ⟨r1, r2, r3, r4, r5, r6⟩ := hr
        refine ⟨⟨?_, ?_, ?_, ?_, ?_, ?_⟩, ?_, ?_, ?_⟩ <;>
          simp only [hw.1, hw.2.1, hw.2.2.1, hw.2.2.2.1, hw.2.2.2.2.1, hw.2.2.2.2.2.1,
            hw.2.2.2.2.2.2.1, hw.2.2.2.2.2.2.2.1] <;>
          first
            | exact r1 | exact r2 | exact r3 | exact r4 | exact r5 | exact r6
            | exact hb8 | exact hb9 | exact hg
    · have hcf : s.chain_active = false := by
        cases hcc : s.chain_active
        · rfl
        · exact absurd hcc hc
      have hi := hidle hcf
      have hrun : s.timer20.running = false := hi.2.2.2.2.2
      unfold fanoutStep
      rw [hrun]
      simp only [Bool.false_and, if_neg (by decide : ¬(false = true))]
      exact ⟨hidle, hact⟩
  | irq =>
    show ChainInv (if s.timer21.intCompare0 then timer21_isr s else s)
    split
    · unfold timer21_isr
      split
      · constructor
        · intro _
          exact (cleanup_idle _).1
        · intro hc
          rw [(cleanup_idle _).2] at hc
          exact absurd hc (by decide)
      · exact h
    · exact h

/-- C1: from the armed state with toggleCount = 6, exactly 6 toggle edges
occur between arm and completion; the TIMER21 COMPARE0 completion event is
pending after exactly the 6th toggle and never before (the ISR is a no-op
at every earlier point); the counting timer's value equals the number of
edges at every step, both being driven by the same fan-out event; and after
the completion ISR the pin is at the inactive low level. -/
theorem c1_exact_six_toggles_completion :
    (∀ k < 6, (runChain k armState).timer21.compare0Event = false ∧
      timer21_isr (runChain k armState) = runChain k armState) ∧
    (∀ k ≤ 6, (runChain k armState).edgeCount = k ∧
      (runChain k armState).timer21.count = (runChain k armState).edgeCount) ∧
    (runChain 6 armState).timer21.compare0Event = true ∧
    (timer21_isr (runChain 6 armState)).edgeCount = 6 ∧
    obsLevel (timer21_isr (runChain 6 armState)) = false ∧
    (timer21_isr (runChain 6 armState)).chain_active = false := by decide

/-- Witness for C1 at the concrete step k = 3. -/
theorem c1_witness :
    (runChain 3 armState).timer21.compare0Event = false ∧
    (runChain 3 armState).edgeCount = 3 :=
  ⟨(c1_exact_six_toggles_completion.1 3 (by decide)).1,
   (c1_exact_six_toggles_completion.2.1 3 (by decide)).1⟩

/-- C2: cleanup_chain is idempotent on every state: running it twice in
succession yields exactly the state of running it once (every HAL call in
it either writes a constant or masks bits, and the redundant pass changes
nothing, raising no error). -/
theorem c2_cleanup_idempotent (s : SysState) :
    cleanup_chain (cleanup_chain s) = cleanup_chain s := by
  simp [cleanup_chain, applyOps, cleanupOps, applyOp, applyOpRaw, withEdges, obsLevel,
    updTimer, getTimer, setTimer, Nat.and_assoc]

/-- C3: in every reachable state, if the chain is idle (chain_active false)
then the output pin is observably low, neither orchestrator-owned DPPI
channel is enabled, and no publish/subscribe route references the timers or
the GPIOTE channel; conversely while the chain is active the routing is
fully configured and both channels are enabled. -/
theorem c3_idle_invariant (s : SysState) (h : Reachable s) : ChainInv s := by
  induction h with
  | init => decide
  | step e hr ih => exact chainInv_preserved e _ ih

/-- Witness for C3 at the reachable boot state. -/
theorem c3_witness : ChainInv initState :=
  c3_idle_invariant initState Reachable.init

/-- C4: re-arming while the chain is active first runs the full cleanup and
only then reconfigures (setup_and_start_chain literally factors through
cleanup_chain), and from every partial state of a running sequence the
re-armed chain holds cleared counters and no pending completion event, and
produces exactly 6 new toggle edges with the completion event after the 6th
of them and never before: no stale toggle of the superseded sequence
remains. -/
theorem c4_rearm_restarts_fresh :
    (∀ s : SysState, s.chain_active = true →
      setup_and_start_chain s = applyOps (setupOps 500000 6) (cleanup_chain s)) ∧
    (∀ j < 6,
      (setup_and_start_chain (runChain j armState)).timer20.count = 0 ∧
      (setup_and_start_chain (runChain j armState)).timer21.count = 0 ∧
      (setup_and_start_chain (runChain j armState)).timer21.compare0Event = false ∧
      (∀ k < 6, (runChain k (setup_and_start_chain
        (runChain j armState))).timer21.compare0Event = false) ∧
      (runChain 6 (setup_and_start_chain (runChain j armState))).edgeCount
        - (setup_and_start_chain (runChain j armState)).edgeCount = 6 ∧
      (runChain 6 (setup_and_start_chain
        (runChain j armState))).timer21.compare0Event = true) := by
  constructor
  · intro s h
    simp [setup_and_start_chain, h]
  · decide

/-- Witness for C4: re-arm from the running state two toggles in. -/
theorem c4_witness :
    setup_and_start_chain armState
      = applyOps (setupOps 500000 6) (cleanup_chain armState) ∧
    (runChain 6 (setup_and_start_chain
      (runChain 2 armState))).timer21.compare0Event = true :=
  ⟨c4_rearm_restarts_fresh.1 armState (by decide),
   (c4_rearm_restarts_fresh.2 2 (by decide)).2.2.2.2.2⟩

/-- C5: within one arm cycle no toggle can fire before the chain is fully
wired: after every proper prefix of setup_and_start_chain's 27 HAL calls a
TIMER20 COMPARE0 occurrence is impossible (the timer is not yet started, so
fanoutStep is the identity), and at every prefix at which the sequence is
observably armed (chain_active already set) the first toggle deadline
(CC0 = 500000) is programmed, every route is bound, both DPPI channels are
enabled, the GPIOTE task is enabled and the completion interrupt armed. -/
theorem c5_wired_before_start :
    (setupOps 500000 6).length = 27 ∧
    (∀ i < 27, fanoutStep (armPrefix i) = armPrefix i) ∧
    (∀ i ≤ 27, (armPrefix i).chain_active = true →
      (armPrefix i).timer20.cc0 = 500000 ∧ routesConfigured (armPrefix i) ∧
      (armPrefix i).gpiote.taskEnabled = true ∧
      (armPrefix i).timer21.intCompare0 = true ∧
      (armPrefix i).dppiChEn.testBit DPPI_CH_TOGGLE = true ∧
      (armPrefix i).dppiChEn.testBit DPPI_CH_STOP = true) := by decide

/-- Witness for C5 at prefix lengths 10 and 26. -/
theorem c5_witness :
    fanoutStep (armPrefix 10) = armPrefix 10 ∧ (armPrefix 26).timer20.cc0 = 500000 :=
  ⟨c5_wired_before_start.2.1 10 (by decide),
   (c5_wired_before_start.2.2 26 (by decide) (by decide)).1⟩

/-- C6 counterexample: with the button pressed at t = 1000 ms and again at
t = 1100 ms (100 ms apart), two toggles into the running sequence, the
second press is NOT accepted: button_pressed returns with the state
unchanged (100 ms is below main.c's 300 ms debounce window), and in
particular the sequence is not restarted from toggle 1 — TIMER21's counter
stays at 2 instead of being cleared. -/
theorem c6_counterexample :
    button_pressed 1100 pressTwiceMid = pressTwiceMid ∧
    pressTwiceMid.chain_active = true ∧
    pressTwiceMid.timer21.count = 2 ∧
    (button_pressed 1100 pressTwiceMid).timer21.count = 2 := by decide

/-- C6 amended: when the trigger fires twice 100 ms apart, the second
trigger falls below the configured 300 ms minimum inter-trigger spacing and
is ignored with no state change; the original sequence continues unaffected
and runs to completion with exactly its 6 edges, pin low and chain inactive
afterwards. -/
theorem c6_amended_second_trigger_ignored :
    button_pressed 1100 pressTwiceMid = pressTwiceMid ∧
    (timer21_isr (runChain 4 (button_pressed 1100 pressTwiceMid))).edgeCount = 6 ∧
    obsLevel (timer21_isr (runChain 4 (button_pressed 1100 pressTwiceMid))) = false ∧
    (timer21_isr (runChain 4 (button_pressed 1100
      pressTwiceMid))).chain_active = false := by decide

/-- C7: the armed chain has TIMER20 at the 1 MHz prescaler with CC0 =
500000 and the compare-clear short enabled and TIMER21 with CC0 = 6; the
k-th toggle edge occurs at k * 500000 ticks = k * 500 ms after arm, the
completion event is pending exactly at the 6th toggle (3000000 ticks =
3000 ms) and not before, it fires exactly once (after the cleanup ISR the
interrupt is disabled and a further fan-out occurrence changes nothing),
and the pin is low afterwards. -/
theorem c7_timing_500ms_completion_3000ms :
    armState.timer20.freq1MHz = true ∧ armState.timer20.cc0 = 500000 ∧
    armState.timer20.shortsCompare0Clear = true ∧ armState.timer21.cc0 = 6 ∧
    (∀ k ≤ 6, (runChain k armState).timeTicks = k * 500000 ∧
      (runChain k armState).edgeCount = k) ∧
    (∀ k < 6, (runChain k armState).timer21.compare0Event = false) ∧
    (runChain 6 armState).timer21.compare0Event = true ∧
    (runChain 6 armState).timeTicks / 1000 = 3000 ∧
    obsLevel (timer21_isr (runChain 6 armState)) = false ∧
    (timer21_isr (runChain 6 armState)).timer21.intCompare0 = false ∧
    fanoutStep (timer21_isr (runChain 6 armState))
      = timer21_isr (runChain 6 armState) := by decide

/-- Witness for C7 at the concrete step k = 2. -/
theorem c7_witness :
    (runChain 2 armState).timeTicks = 2 * 500000 ∧
    (runChain 2 armState).timer21.compare0Event = false :=
  ⟨(c7_timing_500ms_completion_3000ms.2.2.2.2.1 2 (by decide)).1,
   c7_timing_500ms_completion_3000ms.2.2.2.2.2.1 2 (by decide)⟩

/-- C8: on every invocation, cleanup_chain leaves TIMER20 — the periodic
Time Source whose timer mode keeps the HFCLK domain requested even while
stopped — reconfigured into counter mode, its lowest-power idle mode, so
the clock domain can be released. -/
theorem c8_cleanup_releases_hfclk (s : SysState) :
    (cleanup_chain s).timer20.mode = TimerMode.counter ∧
    timerRequiresHFCLK (cleanup_chain s).timer20 = false := ⟨rfl, rfl⟩

/-- C9: an arm attempt with toggleCount = 0 is rejected at arm time with
the InvalidConfig error and causes no state change: the returned state is
the input state itself, so the orchestrator stays idle, no peripheral is
reconfigured, and the output pin keeps its level. -/
theorem c9_invalid_config_rejected (cfg : SequenceConfig) (s : SysState)
    (h : cfg.toggleCount = 0) :
    arm_spec cfg s = (some ArmError.invalidConfig, s) ∧
    (arm_spec cfg s).2 = s ∧
    obsLevel (arm_spec cfg s).2 = obsLevel s ∧
    (arm_spec cfg s).2.chain_active = s.chain_active := by
  unfold arm_spec
  rw [if_pos h]
  exact ⟨rfl, rfl, rfl, rfl⟩

/-- Witness for C9 at the all-zero configuration and the boot state. -/
theorem c9_witness :
    arm_spec ⟨0, 0, 0⟩ initState = (some ArmError.invalidConfig, initState) :=
  (c9_invalid_config_rejected ⟨0, 0, 0⟩ initState rfl).1

/-- C10: every GATT write to the trigger characteristic returns len, and
its behavior is independent of the payload bytes: two writes with the same
len but different buffers produce identical results, and the connection
state is returned unchanged — the payload is never interpreted. -/
theorem c10_write_payload_opaque (st : BleState) (conn : Nat)
    (buf1 buf2 : List Nat) (len offset flags : Nat) :
    io_trigger_write st conn buf1 len offset flags
      = io_trigger_write st conn buf2 len offset flags ∧
    (io_trigger_write st conn buf1 len offset flags).1 = st ∧
    (io_trigger_write st conn buf1 len offset flags).2 = (len : Int) :=
  ⟨rfl, rfl, rfl⟩
